import Mathlib

/-!
Shallow embedding of the tardy-request bot (`src/Lib/main.py`).

Strings are modelled over their ASCII fragment: Python's `str.strip`,
`str.upper`, `str.isdigit`, `\s`, `\d`, `[A-Z]` are modelled on ASCII
characters, which covers every identity, passport, time and date value the
program manipulates.  Chat delivery, message editing and the outbound
HTTP decision call are best-effort side effects with no local state, so
they do not appear in the state-transition functions; the HTTP responses
the handlers *read* are passed in as explicit inputs.
-/

namespace TardyBot

/-! ### Python string helpers -/

/-- Python whitespace characters (`\s`, `str.strip`), ASCII fragment. -/
def pyIsSpace (c : Char) : Bool :=
  c = ' ' || c = '\t' || c = '\n' || c = '\r' || c = '\x0b' || c = '\x0c'

/-- `str.strip()` on a character list. -/
def stripList (l : List Char) : List Char :=
  ((l.dropWhile pyIsSpace).reverse.dropWhile pyIsSpace).reverse

/-- `str.strip()`. -/
def pyStrip (s : String) : String := String.mk (stripList s.toList)

/-- `str.isdigit()` on ASCII strings: non-empty and all characters `0`-`9`. -/
def pyIsDigitStr (s : String) : Bool :=
  !s.toList.isEmpty && s.toList.all Char.isDigit

/-- `x or y` for an optional string `x` (Python truthiness: `None` and `""`
are falsy) with fallback `y`. -/
def pyOrStr (a : Option String) (b : String) : String :=
  match a with
  | some s => if s = "" then b else s
  | none => b

/-- Whether an optional string field is truthy in Python (`if not passport`). -/
def pyTruthy (a : Option String) : Bool :=
  match a with
  | some s => !(s = "")
  | none => false

/-! ### Validation (`main.py` lines 83-116) -/

/-- `normalize_passport`: `re.sub(r"\s+", "", text.strip().upper())`. -/
def normalize_passport (s : String) : String :=
  String.mk (((stripList s.toList).map Char.toUpper).filter (fun c => !(pyIsSpace c)))

/-- `PASSPORT_RE = ^[A-Z]{2}\d{7}$` applied with `re.match`. -/
def passportMatch (s : String) : Bool :=
  match s.toList with
  | a :: b :: rest => a.isUpper && b.isUpper && rest.length == 7 && rest.all Char.isDigit
  | _ => false

def digitVal (c : Char) : Nat := c.toNat - '0'.toNat

def isLeap (y : Nat) : Bool := (y % 4 == 0 && y % 100 != 0) || y % 400 == 0

def daysInMonth (m y : Nat) : Nat :=
  if m == 2 then (if isLeap y then 29 else 28)
  else if m == 4 || m == 6 || m == 9 || m == 11 then 30
  else 31

/-- `valid_birthdate`: `BIRTHDATE_RE` (`^\d{2}\.\d{2}\.\d{4}$`) plus
`strptime(s, "%d.%m.%Y")` calendar validity (month 1-12, day within the
month, year at least `datetime.MINYEAR = 1`). -/
def valid_birthdate (s : String) : Bool :=
  match s.toList with
  | [d1, d2, p1, m1, m2, p2, y1, y2, y3, y4] =>
    d1.isDigit && d2.isDigit && p1 == '.' && m1.isDigit && m2.isDigit && p2 == '.' &&
    y1.isDigit && y2.isDigit && y3.isDigit && y4.isDigit &&
    (let d := digitVal d1 * 10 + digitVal d2
     let m := digitVal m1 * 10 + digitVal m2
     let y := digitVal y1 * 1000 + digitVal y2 * 100 + digitVal y3 * 10 + digitVal y4
     1 ≤ m && m ≤ 12 && 1 ≤ d && d ≤ daysInMonth m y && 1 ≤ y)
  | _ => false

/-- A clock time `HH:MM` as produced by `strptime("%H:%M").time()`. -/
structure HM where
  h : Nat
  m : Nat
deriving DecidableEq, Repr

/-- `datetime.time` comparison (`e_time < s_time`), lexicographic. -/
def HM.ltb (a b : HM) : Bool :=
  a.h < b.h || (a.h == b.h && a.m < b.m)

/-- `parse_time_hhmm`: `TIME_RE` (`^\d{2}:\d{2}$`) on the stripped input,
then `strptime("%H:%M")` (hour below 24, minute below 60). -/
def parse_time_hhmm (s : String) : Option HM :=
  match (pyStrip s).toList with
  | [h1, h2, c, m1, m2] =>
    if h1.isDigit && h2.isDigit && c == ':' && m1.isDigit && m2.isDigit then
      let hh := digitVal h1 * 10 + digitVal h2
      let mm := digitVal m1 * 10 + digitVal m2
      if hh < 24 && mm < 60 then some ⟨hh, mm⟩ else none
    else none
  | _ => none

/-- A time of day with sub-minute precision, as given by
`now_local_dt().time()`. -/
structure TOD where
  h : Nat
  m : Nat
  s : Nat
  micro : Nat
deriving DecidableEq, Repr

/-- `datetime.time` order, lexicographic down to microseconds. -/
def TOD.leb (a b : TOD) : Bool :=
  a.h < b.h || (a.h == b.h &&
    (a.m < b.m || (a.m == b.m &&
      (a.s < b.s || (a.s == b.s && a.micro ≤ b.micro)))))

/-- `CUT_OFF = dtime(8, 10)`. -/
def CUT_OFF : TOD := ⟨8, 10, 0, 0⟩

/-! ### Time service (`main.py` lines 41-78) -/

/-- A wall-clock reading broken into calendar fields. -/
structure DT where
  year : Nat
  month : Nat
  day : Nat
  hour : Nat
  minute : Nat
  second : Nat
  micro : Nat
deriving DecidableEq, Repr

/-- Zero-pad a natural to width `w`. -/
def padZ (w n : Nat) : String :=
  let s := toString n
  String.mk (List.replicate (w - s.length) '0') ++ s

/-- `datetime.isoformat()`: `YYYY-MM-DDTHH:MM:SS[.ffffff]`, the fractional
part present exactly when the microsecond field is nonzero. -/
def isoformat (t : DT) : String :=
  padZ 4 t.year ++ "-" ++ padZ 2 t.month ++ "-" ++ padZ 2 t.day ++ "T" ++
  padZ 2 t.hour ++ ":" ++ padZ 2 t.minute ++ ":" ++ padZ 2 t.second ++
  (if t.micro == 0 then "" else "." ++ padZ 6 t.micro)

/-- `strftime("%Y-%m-%d %H:%M:%S")`. -/
def fmtYmdHms (t : DT) : String :=
  padZ 4 t.year ++ "-" ++ padZ 2 t.month ++ "-" ++ padZ 2 t.day ++ " " ++
  padZ 2 t.hour ++ ":" ++ padZ 2 t.minute ++ ":" ++ padZ 2 t.second

/-- The two readings of the same instant: `datetime.utcnow()` and
`datetime.now(ZoneInfo(TIMEZONE))` (the deployment's local zone, by
default `Asia/Tashkent`, UTC+5). -/
structure Clock where
  utcNow : DT
  localNow : DT
deriving DecidableEq, Repr

/-- `submitted_now_str`: the code returns `datetime.utcnow().isoformat()`
(its docstring announces the local `YYYY-MM-DD HH:MM:SS` string instead). -/
def submitted_now_str (c : Clock) : String := isoformat c.utcNow

/-- The value the docstring of `submitted_now_str` and the spec describe:
the current local time formatted `YYYY-MM-DD HH:MM:SS`. -/
def localNowStr (c : Clock) : String := fmtYmdHms c.localNow

/-! ### Record store (`main.py` lines 144-256) -/

/-- A row of the `users` table (keyed by `tg_id`). -/
structure UserRow where
  passport : Option String
  birthdate : Option String
  full_name : Option String
  is_manager : Bool
  supervisor_tg_id : Option String
deriving DecidableEq, Repr

/-- A row of the `tardy_requests` table (keyed by `id`). -/
structure TardyRow where
  employee_tg_id : String
  manager_tg_id : String
  reason : Option String
  start_time : Option String
  end_time : Option String
  submitted_at : String
  status : String
deriving DecidableEq, Repr

/-- First-match association lookup (`SELECT ... WHERE key = ?`). -/
def getAssoc {α : Type} : List (Nat × α) → Nat → Option α
  | [], _ => none
  | (k, v) :: rest, key => if k = key then some v else getAssoc rest key

/-- First-match association lookup with string keys. -/
def getAssocS {α : Type} : List (String × α) → String → Option α
  | [], _ => none
  | (k, v) :: rest, key => if k = key then some v else getAssocS rest key

/-- The SQLite database: both tables plus the `AUTOINCREMENT` counter of
`tardy_requests`. -/
structure DB where
  users : List (String × UserRow)
  tardy : List (Nat × TardyRow)
  nextId : Nat
deriving DecidableEq, Repr

/-- `get_user`. -/
def get_user (db : DB) (tg_id : String) : Option UserRow :=
  getAssocS db.users tg_id

/-- `get_tardy`. -/
def get_tardy (db : DB) (req_id : Nat) : Option TardyRow :=
  getAssoc db.tardy req_id

/-- `set_tardy_status`: `UPDATE tardy_requests SET status = ? WHERE id = ?`. -/
def set_tardy_status (db : DB) (req_id : Nat) (st : String) : DB :=
  { db with tardy := db.tardy.map (fun p =>
      if p.1 = req_id then (p.1, { p.2 with status := st }) else p) }

/-- `set_user_supervisor`: `UPDATE users SET supervisor_tg_id = ? WHERE tg_id = ?`. -/
def set_user_supervisor (db : DB) (tg_id : String) (sup : Option String) : DB :=
  { db with users := db.users.map (fun p =>
      if p.1 = tg_id then (p.1, { p.2 with supervisor_tg_id := sup }) else p) }

/-- `upsert_user`: `INSERT ... ON CONFLICT(tg_id) DO UPDATE`. -/
def upsert_user (db : DB) (tg_id : String) (passport birthdate : String)
    (full_name : String) (is_manager : Bool) (supervisor_tg_id : Option String) : DB :=
  let row : UserRow :=
    ⟨some passport, some birthdate, some full_name, is_manager, supervisor_tg_id⟩
  if (getAssocS db.users tg_id).isSome then
    { db with users := db.users.map (fun p =>
        if p.1 = tg_id then (p.1, row) else p) }
  else
    { db with users := db.users ++ [(tg_id, row)] }

/-- `create_tardy_request`: insert with the auto-increment id, status
`'pending'`, `submitted_at = submitted_now_str()`; returns `lastrowid`. -/
def create_tardy_request (db : DB) (employee_tg_id manager_tg_id : String)
    (reason : Option String) (start_hm end_hm : Option String) (clk : Clock) :
    Nat × DB :=
  (db.nextId,
   { db with
     tardy := db.tardy ++ [(db.nextId,
       { employee_tg_id := employee_tg_id
         manager_tg_id := manager_tg_id
         reason := reason
         start_time := start_hm
         end_time := end_hm
         submitted_at := submitted_now_str clk
         status := "pending" })]
     nextId := db.nextId + 1 })

/-! ### Conversation state (aiogram FSM) -/

inductive ConvTag
  | regPassport
  | regBirthdate
  | tardyReason
  | tardyStart
  | tardyEnd
deriving DecidableEq, Repr

/-- Per-identity FSM: current state tag plus accumulated data keys
(`passport`, `tardy_reason`, `tardy_start`). -/
structure FSM where
  state : Option ConvTag
  passport : Option String
  tardy_reason : Option String
  tardy_start : Option String
deriving DecidableEq, Repr

/-- `state.clear()`: drops both the state tag and the accumulated data. -/
def FSM.cleared : FSM := ⟨none, none, none, none⟩

/-- The user-visible replies the modelled handlers can produce. -/
inductive Msg
  | needRegister
  | noNotificationRequired
  | askReason
  | badPassport
  | askBirth
  | badDate
  | connError
  | regSuccess
  | regNotFound
  | regDuplicate
  | regBadData (reason : String)
  | regUnexpected (status : Nat)
  | badEndFormat
  | startUnreadable
  | endBeforeStart
  | noValidApprover
  | requestSent (id : Nat)
  | notFoundOrDecided
  | notAuthorized
  | decidedOk (label : String)
  | internalErr
deriving DecidableEq, Repr

/-! ### Registration flow (`main.py` lines 426-469) -/

/-- `ask_birthdate` handler (state `Reg.passport`): normalize the input;
on regex mismatch re-prompt leaving everything unchanged; on match store
the passport and advance to `Reg.birthdate`. -/
def ask_birthdate (fsm : FSM) (input : String) : FSM × Msg :=
  let p := normalize_passport input
  if passportMatch p then
    ({ fsm with passport := some p, state := some ConvTag.regBirthdate }, Msg.askBirth)
  else
    (fsm, Msg.badPassport)

/-- The JSON body `register_in_1c` parses out of the HR response. -/
structure RegJs where
  fullName : Option String
  name : Option String
  isManagerFlags : Bool
  supervisor_tg_id : Option String
  manager_tg_id : Option String
  reason : Option String
deriving DecidableEq, Repr

/-- Outcome of the `register_in_1c` HTTP call: a transport failure
(raises, caught by the handler) or a status code with parsed JSON. -/
inductive HrResult
  | transportErr
  | ok (status : Nat) (js : RegJs)
deriving DecidableEq, Repr

/-- `do_register` handler (state `Reg.birthdate`): validate the birthdate,
call the HR gateway; only HTTP 200 writes a User row and clears the
conversation, every other outcome (404/204, 409, 400, other, transport
error) leaves both the database and the conversation state untouched. -/
def do_register (fsm : FSM) (uid : String) (input : String) (db : DB)
    (hr : HrResult) : FSM × DB × Msg :=
  let b := pyStrip input
  if !(valid_birthdate b) then (fsm, db, Msg.badDate)
  else
    match fsm.passport with
    | none => (fsm, db, Msg.internalErr)
    | some passport =>
      match hr with
      | HrResult.transportErr => (fsm, db, Msg.connError)
      | HrResult.ok status js =>
        if status = 200 then
          let name := pyOrStr js.fullName (pyOrStr js.name "сотрудник")
          let is_manager := js.isManagerFlags
          let sup := match js.supervisor_tg_id with
            | some s => if s = "" then js.manager_tg_id else some s
            | none => js.manager_tg_id
          let db' := upsert_user db uid passport b name is_manager sup
          (FSM.cleared, db', Msg.regSuccess)
        else if status = 404 || status = 204 then (fsm, db, Msg.regNotFound)
        else if status = 409 then (fsm, db, Msg.regDuplicate)
        else if status = 400 then (fsm, db, Msg.regBadData (pyOrStr js.reason "Неверные данные."))
        else (fsm, db, Msg.regUnexpected status)

/-! ### Tardy flow (`main.py` lines 472-567) -/

/-- `tardy_start` handler ("Я опоздал"): requires a registered user; at or
before `CUT_OFF` replies that no notification is required and enters no
state; otherwise enters `Tardy.waiting_reason`. Performs no writes. -/
def tardy_start (db : DB) (uid : String) (now : TOD) (fsm : FSM) :
    DB × FSM × Msg :=
  match get_user db uid with
  | none => (db, fsm, Msg.needRegister)
  | some _ =>
    if now.leb CUT_OFF then (db, fsm, Msg.noNotificationRequired)
    else (db, { fsm with state := some ConvTag.tardyReason }, Msg.askReason)

/-- `tardy_end_time` handler (state `Tardy.waiting_end`): parse the end
time (re-prompt on bad format), re-parse the stored start (clear on
failure), re-prompt for the end only when `end < start`, re-check the
user, resolve the approver as `str(supervisor_tg_id or "").strip()`
gated by `isdigit()`, then create the request and clear the state. -/
def tardy_end_time (fsm : FSM) (uid : String) (input : String) (db : DB)
    (clk : Clock) : FSM × DB × Msg :=
  let e_str := pyStrip input
  match parse_time_hhmm e_str with
  | none => (fsm, db, Msg.badEndFormat)
  | some e_time =>
    let start_str := fsm.tardy_start
    let reason := fsm.tardy_reason
    let user := get_user db uid
    match start_str.bind parse_time_hhmm with
    | none => (FSM.cleared, db, Msg.startUnreadable)
    | some s_time =>
      if HM.ltb e_time s_time then (fsm, db, Msg.endBeforeStart)
      else
        match user with
        | none => (FSM.cleared, db, Msg.needRegister)
        | some u =>
          let manager_tg_id := pyStrip (pyOrStr u.supervisor_tg_id "")
          if !(pyIsDigitStr manager_tg_id) then
            (FSM.cleared, db, Msg.noValidApprover)
          else
            let r := create_tardy_request db uid manager_tg_id reason start_str
              (some e_str) clk
            (FSM.cleared, r.2, Msg.requestSent r.1)

/-! ### Approval handler (`main.py` lines 602-658) -/

/-- `tardy_approve` callback: absent or non-pending → "already decided",
no write; wrong identity → "not authorized", no write; otherwise one
status write to `approved`. -/
def tardy_approve (db : DB) (actor : String) (req_id : Nat) : DB × Msg :=
  match get_tardy db req_id with
  | none => (db, Msg.notFoundOrDecided)
  | some r =>
    if r.status ≠ "pending" then (db, Msg.notFoundOrDecided)
    else if actor ≠ r.manager_tg_id then (db, Msg.notAuthorized)
    else (set_tardy_status db req_id "approved", Msg.decidedOk "approved")

/-- `tardy_reject` callback: same gates, writes `rejected`. -/
def tardy_reject (db : DB) (actor : String) (req_id : Nat) : DB × Msg :=
  match get_tardy db req_id with
  | none => (db, Msg.notFoundOrDecided)
  | some r =>
    if r.status ≠ "pending" then (db, Msg.notFoundOrDecided)
    else if actor ≠ r.manager_tg_id then (db, Msg.notAuthorized)
    else (set_tardy_status db req_id "rejected", Msg.decidedOk "rejected")

/-! ### Supervisor sync (`main.py` lines 276-315) -/

/-- The JSON body `sync_supervisor_from_1c` scans for a supervisor id. -/
structure SyncJs where
  supervisor_tg_id : Option String
  manager_tg_id : Option String
  managerId : Option String
  supervisorId : Option String
  supervisor : Option String
  manager : Option String
deriving DecidableEq, Repr

/-- The `or`-chain over the accepted key names, defaulting to `""`. -/
def pickRawId (js : SyncJs) : String :=
  pyOrStr js.supervisor_tg_id (pyOrStr js.manager_tg_id (pyOrStr js.managerId
    (pyOrStr js.supervisorId (pyOrStr js.supervisor (pyOrStr js.manager "")))))

/-- Worker for `re.search(r"\d{5,}", s)`: `cur` is the (reversed) run of
digits read so far; a maximal run of length at least 5 is returned whole. -/
def findRunAux : List Char → List Char → Option String
  | cur, [] => if 5 ≤ cur.length then some (String.mk cur.reverse) else none
  | cur, c :: rest =>
    if c.isDigit then findRunAux (c :: cur) rest
    else if 5 ≤ cur.length then some (String.mk cur.reverse)
    else findRunAux [] rest

/-- `re.search(r"\d{5,}", s)` returning `m.group(0)`. -/
def findDigitRun (s : String) : Option String := findRunAux [] s.toList

/-- Specification-side predicate: some position of the list starts a run
of five consecutive digits (equivalently, the list contains a run of five
or more digits). Independent of `findRunAux`. -/
def hasFiveDigitRun : List Char → Bool
  | [] => false
  | c :: rest => (5 ≤ (c :: rest).length && ((c :: rest).take 5).all Char.isDigit)
      || hasFiveDigitRun rest

/-- `sync_supervisor_from_1c`: requires a user with truthy passport and
birthdate; extracts the first run of 5+ digits from the picked raw id and
stores it (or `None`) into `users.supervisor_tg_id` unconditionally. -/
def sync_supervisor_from_1c (db : DB) (uid : String) (js : SyncJs) :
    DB × Option String :=
  match get_user db uid with
  | none => (db, none)
  | some u =>
    if !(pyTruthy u.passport) || !(pyTruthy u.birthdate) then (db, none)
    else
      let raw := pickRawId js
      let sup := findDigitRun raw
      (set_user_supervisor db uid sup, sup)

/-! ### Record-store lemmas -/

theorem getAssoc_mapUpdate {α : Type} (l : List (Nat × α)) (id : Nat) (f : α → α) :
    getAssoc (l.map (fun p => if p.1 = id then (p.1, f p.2) else p)) id =
      (getAssoc l id).map f := by
  induction l with
  | nil => rfl
  | cons hd tl ih =>
    obtain ⟨k, v⟩ := hd
    by_cases hk : k = id
    · subst hk
      rw [List.map_cons]
      have hhead : (if (k, v).1 = k then ((k, v).1, f (k, v).2) else (k, v))
          = (k, f v) := by simp
      rw [hhead]
      simp [getAssoc]
    · rw [List.map_cons]
      have hhead : (if (k, v).1 = id then ((k, v).1, f (k, v).2) else (k, v))
          = (k, v) := by simp [hk]
      rw [hhead]
      simp [getAssoc, hk, ih]

theorem getAssocS_mapUpdate {α : Type} (l : List (String × α)) (id : String)
    (f : α → α) :
    getAssocS (l.map (fun p => if p.1 = id then (p.1, f p.2) else p)) id =
      (getAssocS l id).map f := by
  induction l with
  | nil => rfl
  | cons hd tl ih =>
    obtain ⟨k, v⟩ := hd
    by_cases hk : k = id
    · subst hk
      rw [List.map_cons]
      have hhead : (if (k, v).1 = k then ((k, v).1, f (k, v).2) else (k, v))
          = (k, f v) := by simp
      rw [hhead]
      simp [getAssocS]
    · rw [List.map_cons]
      have hhead : (if (k, v).1 = id then ((k, v).1, f (k, v).2) else (k, v))
          = (k, v) := by simp [hk]
      rw [hhead]
      simp [getAssocS, hk, ih]

theorem getAssoc_append_fresh {α : Type} (l : List (Nat × α)) (n : Nat) (v : α)
    (h : ∀ p ∈ l, p.1 ≠ n) :
    getAssoc (l ++ [(n, v)]) n = some v := by
  induction l with
  | nil => simp [getAssoc]
  | cons hd tl ih =>
    obtain ⟨k, w⟩ := hd
    have hk : k ≠ n := h (k, w) (by simp)
    simpa [getAssoc, hk] using ih (fun p hp => h p (by simp [hp]))

/-- Reading back the status after `set_tardy_status`. -/
theorem get_tardy_set_status (db : DB) (id : Nat) (st : String) :
    get_tardy (set_tardy_status db id st) id =
      (get_tardy db id).map (fun r => { r with status := st }) := by
  simp only [get_tardy, set_tardy_status]
  exact getAssoc_mapUpdate db.tardy id (fun r => { r with status := st })

/-- Reading back the supervisor after `set_user_supervisor`. -/
theorem get_user_set_supervisor (db : DB) (uid : String) (v : Option String) :
    get_user (set_user_supervisor db uid v) uid =
      (get_user db uid).map (fun u => { u with supervisor_tg_id := v }) := by
  simp only [get_user, set_user_supervisor]
  exact getAssocS_mapUpdate db.users uid (fun u => { u with supervisor_tg_id := v })

/-! ### Digit-run lemmas -/

theorem hasFiveDigitRun_append_right (a b : List Char)
    (h : hasFiveDigitRun (a ++ b) = false) : hasFiveDigitRun b = false := by
  induction a with
  | nil => simpa using h
  | cons x t ih =>
    rw [List.cons_append, hasFiveDigitRun, Bool.or_eq_false_iff] at h
    exact ih h.2

theorem hasFiveDigitRun_of_head (l : List Char) (h5 : 5 ≤ l.length)
    (hd : (l.take 5).all Char.isDigit = true) : hasFiveDigitRun l = true := by
  cases l with
  | nil => simp at h5
  | cons c rest =>
    rw [hasFiveDigitRun, Bool.or_eq_true]
    left
    rw [Bool.and_eq_true]
    exact ⟨by simpa using h5, hd⟩

theorem all_isDigit_take (l : List Char) (n : Nat)
    (h : l.all Char.isDigit = true) : (l.take n).all Char.isDigit = true := by
  rw [List.all_eq_true] at h ⊢
  exact fun c hc => h c (List.mem_of_mem_take hc)

theorem all_isDigit_reverse (l : List Char)
    (h : l.all Char.isDigit = true) : l.reverse.all Char.isDigit = true := by
  rw [List.all_eq_true] at h ⊢
  exact fun c hc => h c (List.mem_reverse.mp hc)

theorem findRunAux_none (l cur : List Char)
    (hcd : cur.all Char.isDigit = true)
    (h : hasFiveDigitRun (cur.reverse ++ l) = false) :
    findRunAux cur l = none := by
  induction l generalizing cur with
  | nil =>
    rw [List.append_nil] at h
    have h5 : ¬ 5 ≤ cur.length := by
      intro h5
      have ht : hasFiveDigitRun cur.reverse = true := by
        apply hasFiveDigitRun_of_head
        · simpa using h5
        · exact all_isDigit_take _ _ (all_isDigit_reverse _ hcd)
      rw [ht] at h
      exact Bool.noConfusion h
    rw [findRunAux, if_neg h5]
  | cons c rest ih =>
    rw [findRunAux]
    by_cases hc : c.isDigit = true
    · rw [if_pos hc]
      apply ih (c :: cur)
      · rw [List.all_eq_true] at hcd ⊢
        intro x hx
        rcases List.mem_cons.mp hx with hx | hx
        · exact hx ▸ hc
        · exact hcd x hx
      · have heq : (c :: cur).reverse ++ rest = cur.reverse ++ (c :: rest) := by
          simp
        rw [heq]
        exact h
    · have h5 : ¬ 5 ≤ cur.length := by
        intro h5
        have ht : hasFiveDigitRun (cur.reverse ++ (c :: rest)) = true := by
          apply hasFiveDigitRun_of_head
          · have h5' : 5 ≤ cur.reverse.length := by simpa using h5
            exact le_trans h5' (by simp)
          · rw [List.take_append_of_le_length (by simpa using h5)]
            exact all_isDigit_take _ _ (all_isDigit_reverse _ hcd)
        rw [ht] at h
        exact Bool.noConfusion h
      rw [if_neg hc, if_neg h5]
      apply ih []
      · rfl
      · have heq : cur.reverse ++ (c :: rest) = (cur.reverse ++ [c]) ++ rest := by
          simp
        rw [heq] at h
        simpa using hasFiveDigitRun_append_right _ _ h

/-- If every scanned key of the sync response is free of 5-digit runs,
so is the picked raw id. -/
theorem pyOrStr_noRun (a : Option String) (b : String)
    (ha : ∀ v, a = some v → hasFiveDigitRun v.toList = false)
    (hb : hasFiveDigitRun b.toList = false) :
    hasFiveDigitRun (pyOrStr a b).toList = false := by
  cases a with
  | none => simpa [pyOrStr] using hb
  | some s =>
    by_cases hs : s = ""
    · simpa [pyOrStr, hs] using hb
    · simpa [pyOrStr, hs] using ha s rfl

/-! ### Claim C1 -/

/-- A decision action: `true` is the approve callback, `false` the reject
callback. -/
def decisionStep (d : Bool) (db : DB) (actor : String) (req_id : Nat) :
    DB × Msg :=
  if d then tardy_approve db actor req_id else tardy_reject db actor req_id

/-- C1: the status of a TardyRequest transitions exactly once from pending.
After a first authorized decision (approve or reject) on a pending request,
any second decision action on the same id, from any identity, is answered
with the "already decided" notice, performs no write, and the final status
is the first decision. -/
theorem C1_status_transitions_once (db : DB) (id : Nat) (r : TardyRow)
    (d1 d2 : Bool) (actor2 : String)
    (hget : get_tardy db id = some r) (hp : r.status = "pending") :
    decisionStep d2 (decisionStep d1 db r.manager_tg_id id).1 actor2 id
      = ((decisionStep d1 db r.manager_tg_id id).1, Msg.notFoundOrDecided) ∧
    get_tardy (decisionStep d1 db r.manager_tg_id id).1 id
      = some { r with status := if d1 then "approved" else "rejected" } := by
  have hstep1 : (decisionStep d1 db r.manager_tg_id id).1 =
      set_tardy_status db id (if d1 then "approved" else "rejected") := by
    cases d1 <;> simp [decisionStep, tardy_approve, tardy_reject, hget, hp]
  have hget1 : get_tardy (decisionStep d1 db r.manager_tg_id id).1 id =
      some { r with status := if d1 then "approved" else "rejected" } := by
    rw [hstep1, get_tardy_set_status, hget]
    rfl
  have hne : (if d1 then "approved" else "rejected") ≠ "pending" := by
    cases d1 <;> decide
  have happr : tardy_approve (decisionStep d1 db r.manager_tg_id id).1 actor2 id
      = ((decisionStep d1 db r.manager_tg_id id).1, Msg.notFoundOrDecided) := by
    unfold tardy_approve
    rw [hget1]
    simp [hne]
  have hrej : tardy_reject (decisionStep d1 db r.manager_tg_id id).1 actor2 id
      = ((decisionStep d1 db r.manager_tg_id id).1, Msg.notFoundOrDecided) := by
    unfold tardy_reject
    rw [hget1]
    simp [hne]
  refine ⟨?_, hget1⟩
  cases d2
  · exact hrej
  · exact happr

def reqC1 : TardyRow :=
  ⟨"7", "42", some "traffic", some "09:20", some "09:45",
   "2026-10-12T03:30:00", "pending"⟩

def dbC1 : DB := ⟨[], [(1, reqC1)], 2⟩

theorem C1_witness :
    decisionStep true (decisionStep true dbC1 "42" 1).1 "42" 1
      = ((decisionStep true dbC1 "42" 1).1, Msg.notFoundOrDecided) ∧
    get_tardy (decisionStep true dbC1 "42" 1).1 1
      = some { reqC1 with status := "approved" } := by
  have h := C1_status_transitions_once dbC1 1 reqC1 true true "42" rfl rfl
  exact ⟨h.1, h.2⟩

/-! ### Claim C2 -/

def reqC2 : TardyRow :=
  ⟨"7", "42", some "traffic", some "09:20", some "09:45",
   "2026-10-12T03:30:00", "approved"⟩

def dbC2 : DB := ⟨[], [(1, reqC2)], 2⟩

/-- C2 counterexample: the claim says a non-approver actor is answered
"not authorized" regardless of whether the request is pending or already
decided. On an already-decided request the code answers with the
"already decided" notice instead (the status check precedes the
authorization check), so the claimed response is wrong there; the
no-mutation part does hold. -/
theorem C2_counterexample :
    ("99" : String) ≠ reqC2.manager_tg_id ∧
    reqC2.status ≠ "pending" ∧
    tardy_approve dbC2 "99" 1 = (dbC2, Msg.notFoundOrDecided) ∧
    tardy_reject dbC2 "99" 1 = (dbC2, Msg.notFoundOrDecided) ∧
    Msg.notFoundOrDecided ≠ Msg.notAuthorized := by decide

/-- C2 (amended): an action from an identity other than the stored
`approverId` never mutates the request record; it is answered
"not authorized" when the request is still pending, while on an
already-decided request the "already decided" notice takes precedence. -/
theorem C2_unauthorized_never_mutates (db : DB) (id : Nat) (r : TardyRow)
    (actor : String)
    (hget : get_tardy db id = some r) (hactor : actor ≠ r.manager_tg_id) :
    (tardy_approve db actor id).1 = db ∧
    (tardy_reject db actor id).1 = db ∧
    (r.status = "pending" →
      (tardy_approve db actor id).2 = Msg.notAuthorized ∧
      (tardy_reject db actor id).2 = Msg.notAuthorized) ∧
    (r.status ≠ "pending" →
      (tardy_approve db actor id).2 = Msg.notFoundOrDecided ∧
      (tardy_reject db actor id).2 = Msg.notFoundOrDecided) := by
  by_cases hp : r.status = "pending" <;>
    simp [tardy_approve, tardy_reject, hget, hp, hactor]

def reqC2w : TardyRow :=
  ⟨"7", "42", some "traffic", some "09:20", some "09:45",
   "2026-10-12T03:30:00", "pending"⟩

def dbC2w : DB := ⟨[], [(1, reqC2w)], 2⟩

theorem C2_witness :
    (tardy_approve dbC2w "99" 1).1 = dbC2w ∧
    (tardy_approve dbC2w "99" 1).2 = Msg.notAuthorized ∧
    (tardy_reject dbC2w "99" 1).1 = dbC2w ∧
    (tardy_reject dbC2w "99" 1).2 = Msg.notAuthorized := by
  have h := C2_unauthorized_never_mutates dbC2w 1 reqC2w "99" rfl (by decide)
  exact ⟨h.1, (h.2.2.1 rfl).1, h.2.1, (h.2.2.1 rfl).2⟩

/-! ### Claim C3 -/

/-- An instant read at creation time while `TIMEZONE=Asia/Tashkent`
(UTC+5): `datetime.utcnow()` is `2026-10-12 03:30:00` while
`datetime.now(ZoneInfo(TIMEZONE))` is `2026-10-12 08:30:00`. -/
def clkC3 : Clock := ⟨⟨2026, 10, 12, 3, 30, 0, 0⟩, ⟨2026, 10, 12, 8, 30, 0, 0⟩⟩

/-- C3: code bug. The spec (and the docstring of `submitted_now_str`
itself) say `submittedAt` is the current time in the configured local
timezone, formatted `YYYY-MM-DD HH:MM:SS`; the code stores
`datetime.utcnow().isoformat()` instead — a UTC instant in ISO `T`
format. At the witness instant the stored value is
`2026-10-12T03:30:00`, not the local `2026-10-12 08:30:00` (offset
UTC+5), so the stored field is neither the local time nor in the
documented format. -/
theorem C3_submittedAt_utc_not_local :
    submitted_now_str clkC3 = "2026-10-12T03:30:00" ∧
    localNowStr clkC3 = "2026-10-12 08:30:00" ∧
    submitted_now_str clkC3 ≠ localNowStr clkC3 ∧
    (get_tardy
        (create_tardy_request ⟨[], [], 1⟩ "7" "42" (some "traffic")
          (some "09:20") (some "09:45") clkC3).2
        1).map TardyRow.submitted_at = some "2026-10-12T03:30:00" := by
  refine ⟨by decide, by decide, by decide, by decide⟩

/-! ### Claim C4 -/

/-- C4: with a registered user, a tardy entry at or before the 08:10
cut-off answers "no notification required", enters no conversation state
and performs no write; at 08:11 local or later it enters the
`AwaitingReason` state (again without touching the database). -/
theorem C4_cutoff_gate (db : DB) (uid : String) (u : UserRow) (now : TOD)
    (fsm : FSM) (hu : get_user db uid = some u) :
    (now.leb CUT_OFF = true →
      tardy_start db uid now fsm = (db, fsm, Msg.noNotificationRequired)) ∧
    (TOD.leb ⟨8, 11, 0, 0⟩ now = true →
      tardy_start db uid now fsm =
        (db, { fsm with state := some ConvTag.tardyReason }, Msg.askReason)) := by
  constructor
  · intro hcl
    unfold tardy_start
    rw [hu]
    simp [hcl]
  · intro h811
    have hcl : now.leb CUT_OFF = false := by
      cases hcl : now.leb CUT_OFF with
      | false => rfl
      | true =>
        exfalso
        simp only [TOD.leb, CUT_OFF, Bool.or_eq_true, Bool.and_eq_true,
          decide_eq_true_eq, beq_iff_eq] at h811 hcl
        omega
    unfold tardy_start
    rw [hu]
    simp [hcl]

def userC4 : UserRow :=
  ⟨some "AD1234567", some "30.09.2005", some "Employee", false, some "42"⟩

def dbC4 : DB := ⟨[("7", userC4)], [], 1⟩

theorem C4_witness :
    tardy_start dbC4 "7" ⟨8, 5, 0, 0⟩ FSM.cleared
      = (dbC4, FSM.cleared, Msg.noNotificationRequired) ∧
    tardy_start dbC4 "7" ⟨8, 10, 0, 0⟩ FSM.cleared
      = (dbC4, FSM.cleared, Msg.noNotificationRequired) ∧
    tardy_start dbC4 "7" ⟨8, 11, 0, 0⟩ FSM.cleared
      = (dbC4, ⟨some ConvTag.tardyReason, none, none, none⟩, Msg.askReason) := by
  refine ⟨?_, ?_, ?_⟩
  · exact (C4_cutoff_gate dbC4 "7" userC4 ⟨8, 5, 0, 0⟩ FSM.cleared rfl).1 (by decide)
  · exact (C4_cutoff_gate dbC4 "7" userC4 ⟨8, 10, 0, 0⟩ FSM.cleared rfl).1 (by decide)
  · have h := (C4_cutoff_gate dbC4 "7" userC4 ⟨8, 11, 0, 0⟩ FSM.cleared rfl).2 (by decide)
    exact h.trans (by decide)

/-! ### Claim C5 -/

/-- C5: with a stored start time and a valid end input, `end < start`
re-prompts for the end time only — the conversation state (including the
stored reason and start) and the database are left exactly as they were —
and a TardyRequest row is appended only when `end >= start`. -/
theorem C5_end_ge_start_gate (fsm : FSM) (uid input : String) (db : DB)
    (clk : Clock) (ss : String) (e s : HM)
    (hss : fsm.tardy_start = some ss)
    (hpe : parse_time_hhmm (pyStrip input) = some e)
    (hps : parse_time_hhmm ss = some s) :
    (HM.ltb e s = true →
      tardy_end_time fsm uid input db clk = (fsm, db, Msg.endBeforeStart)) ∧
    ((tardy_end_time fsm uid input db clk).2.1.tardy ≠ db.tardy →
      HM.ltb e s = false) := by
  constructor
  · intro hlt
    simp [tardy_end_time, hpe, hss, hps, hlt]
  · intro hch
    by_cases hlt : HM.ltb e s = true
    · exfalso
      apply hch
      simp [tardy_end_time, hpe, hss, hps, hlt]
    · simpa using hlt

def fsmC5 : FSM := ⟨some ConvTag.tardyEnd, none, some "traffic", some "09:45"⟩

def dbC5 : DB := ⟨[("7", userC4)], [], 1⟩

def clkC5 : Clock := ⟨⟨2026, 10, 12, 4, 0, 0, 0⟩, ⟨2026, 10, 12, 9, 0, 0, 0⟩⟩

theorem C5_witness :
    tardy_end_time fsmC5 "7" "09:20" dbC5 clkC5
      = (fsmC5, dbC5, Msg.endBeforeStart) :=
  (C5_end_ge_start_gate fsmC5 "7" "09:20" dbC5 clkC5 "09:45" ⟨9, 20⟩ ⟨9, 45⟩
    rfl (by decide) (by decide)).1 (by decide)

/-! ### Claim C6 -/

def userC6 : UserRow :=
  ⟨some "AD1234567", some "30.09.2005", some "Employee", false, some " 123 "⟩

def dbC6 : DB := ⟨[("7", userC6)], [], 1⟩

def fsmC6 : FSM := ⟨some ConvTag.tardyEnd, none, some "traffic", some "09:20"⟩

def clkC6 : Clock := ⟨⟨2026, 10, 12, 4, 0, 0, 0⟩, ⟨2026, 10, 12, 9, 0, 0, 0⟩⟩

/-- C6 counterexample: the claim says the flow aborts for every user whose
stored `supervisorId` is absent or not all-digits. The stored value
`" 123 "` is not all-digits (`str.isdigit` is false on it), yet the flow
does not abort: the handler strips surrounding whitespace before the
digits check, so a request is created with approver `"123"`. -/
theorem C6_counterexample :
    userC6.supervisor_tg_id = some " 123 " ∧
    pyIsDigitStr " 123 " = false ∧
    (tardy_end_time fsmC6 "7" "09:45" dbC6 clkC6).2.2 = Msg.requestSent 1 ∧
    (tardy_end_time fsmC6 "7" "09:45" dbC6 clkC6).2.1.tardy ≠ dbC6.tardy ∧
    (tardy_end_time fsmC6 "7" "09:45" dbC6 clkC6).2.2 ≠ Msg.noValidApprover := by
  decide

/-- C6 (amended): the approver id is the stored `supervisorId` coerced to
a string and stripped of surrounding whitespace; if the stripped value is
empty (absent supervisor) or not all-digits, the flow aborts with the
"no valid approver configured" message, clears the conversation state and
creates no request; otherwise a request is created with the stripped
value as approver. -/
theorem C6_approver_digits_gate (fsm : FSM) (uid input : String) (db : DB)
    (clk : Clock) (ss : String) (e s : HM) (u : UserRow)
    (hss : fsm.tardy_start = some ss)
    (hpe : parse_time_hhmm (pyStrip input) = some e)
    (hps : parse_time_hhmm ss = some s)
    (hge : HM.ltb e s = false)
    (hu : get_user db uid = some u) :
    (pyIsDigitStr (pyStrip (pyOrStr u.supervisor_tg_id "")) = false →
      tardy_end_time fsm uid input db clk
        = (FSM.cleared, db, Msg.noValidApprover)) ∧
    (pyIsDigitStr (pyStrip (pyOrStr u.supervisor_tg_id "")) = true →
      tardy_end_time fsm uid input db clk
        = (FSM.cleared,
           (create_tardy_request db uid (pyStrip (pyOrStr u.supervisor_tg_id ""))
              fsm.tardy_reason (some ss) (some (pyStrip input)) clk).2,
           Msg.requestSent db.nextId)) := by
  constructor
  · intro hd
    simp [tardy_end_time, hpe, hss, hps, hge, hu, hd]
  · intro hd
    simp [tardy_end_time, create_tardy_request, hpe, hss, hps, hge, hu, hd]

def userC6w : UserRow :=
  ⟨some "AD1234567", some "30.09.2005", some "Employee", false, none⟩

def dbC6w : DB := ⟨[("9", userC6w)], [], 1⟩

def fsmC6w : FSM := ⟨some ConvTag.tardyEnd, none, some "traffic", some "09:20"⟩

theorem C6_witness :
    tardy_end_time fsmC6w "9" "09:45" dbC6w clkC6
      = (FSM.cleared, dbC6w, Msg.noValidApprover) :=
  (C6_approver_digits_gate fsmC6w "9" "09:45" dbC6w clkC6 "09:20" ⟨9, 45⟩
    ⟨9, 20⟩ userC6w rfl (by decide) (by decide) (by decide) rfl).1 (by decide)

/-! ### Claim C7 -/

/-- C7: in the `AwaitingPassport` state the input is accepted — stored and
the flow advanced to `AwaitingBirthdate` — exactly when, after stripping
all whitespace and uppercasing, it matches two uppercase letters followed
by seven digits; on mismatch the user is re-prompted and the conversation
state is unchanged. -/
theorem C7_passport_gate (fsm : FSM) (input : String)
    (_hstate : fsm.state = some ConvTag.regPassport) :
    (passportMatch (normalize_passport input) = true →
      ask_birthdate fsm input
        = ({ fsm with passport := some (normalize_passport input),
                      state := some ConvTag.regBirthdate }, Msg.askBirth)) ∧
    (passportMatch (normalize_passport input) = false →
      ask_birthdate fsm input = (fsm, Msg.badPassport)) := by
  constructor <;> intro h <;> simp [ask_birthdate, h]

theorem C7_witness :
    ask_birthdate ⟨some ConvTag.regPassport, none, none, none⟩ "ab123"
      = (⟨some ConvTag.regPassport, none, none, none⟩, Msg.badPassport) ∧
    ask_birthdate ⟨some ConvTag.regPassport, none, none, none⟩ "AD1234567"
      = (⟨some ConvTag.regBirthdate, some "AD1234567", none, none⟩, Msg.askBirth) ∧
    ask_birthdate ⟨some ConvTag.regPassport, none, none, none⟩ " ad 1234567 "
      = (⟨some ConvTag.regBirthdate, some "AD1234567", none, none⟩, Msg.askBirth) := by
  refine ⟨?_, ?_, ?_⟩
  · exact (C7_passport_gate ⟨some ConvTag.regPassport, none, none, none⟩
      "ab123" rfl).2 (by decide)
  · exact ((C7_passport_gate ⟨some ConvTag.regPassport, none, none, none⟩
      "AD1234567" rfl).1 (by decide)).trans (by decide)
  · exact ((C7_passport_gate ⟨some ConvTag.regPassport, none, none, none⟩
      " ad 1234567 " rfl).1 (by decide)).trans (by decide)

/-! ### Claim C8 -/

/-- C8: in the awaiting-birthdate state, if the HR verification call
fails with a transport error or returns any status other than 200, no
User row is written (the database is unchanged) and the conversation
state — including the stored passport — is exactly as before, so the user
can retry without re-entering the passport. -/
theorem C8_hr_failure_preserves (fsm : FSM) (uid input : String) (db : DB)
    (hr : HrResult) (p : String)
    (_hstate : fsm.state = some ConvTag.regBirthdate)
    (hp : fsm.passport = some p)
    (hfail : ∀ js : RegJs, hr ≠ HrResult.ok 200 js) :
    (do_register fsm uid input db hr).1 = fsm ∧
    (do_register fsm uid input db hr).2.1 = db := by
  cases hvb : valid_birthdate (pyStrip input) with
  | false => simp [do_register, hvb]
  | true =>
    cases hr with
    | transportErr => simp [do_register, hvb, hp]
    | ok status js =>
      have h200 : ¬ status = 200 := fun h => hfail js (by rw [h])
      constructor <;>
        (simp only [do_register, hvb, hp, Bool.not_true, Bool.false_eq_true,
          if_false]
         rw [if_neg h200]
         split_ifs <;> rfl)

def fsmC8 : FSM := ⟨some ConvTag.regBirthdate, some "AD1234567", none, none⟩

def dbC8 : DB := ⟨[], [], 1⟩

def jsC8 : RegJs := ⟨none, none, false, none, none, none⟩

theorem C8_witness :
    (do_register fsmC8 "7" "30.09.2005" dbC8 HrResult.transportErr).1 = fsmC8 ∧
    (do_register fsmC8 "7" "30.09.2005" dbC8 HrResult.transportErr).2.1 = dbC8 ∧
    (do_register fsmC8 "7" "30.09.2005" dbC8 (HrResult.ok 500 jsC8)).1 = fsmC8 ∧
    (do_register fsmC8 "7" "30.09.2005" dbC8 (HrResult.ok 500 jsC8)).2.1 = dbC8 := by
  have h1 := C8_hr_failure_preserves fsmC8 "7" "30.09.2005" dbC8
    HrResult.transportErr "AD1234567" rfl rfl
    (by intro js h; exact HrResult.noConfusion h)
  have h2 := C8_hr_failure_preserves fsmC8 "7" "30.09.2005" dbC8
    (HrResult.ok 500 jsC8) "AD1234567" rfl rfl
    (by intro js h; simp at h)
  exact ⟨h1.1, h1.2, h2.1, h2.2⟩

/-! ### Claim C9 -/

/-- C9: round-trip — creating a request with given employee, approver,
reason, start and end, then reading it back by the id returned at
creation, yields a record with exactly those field values and status
`pending` (on any database whose existing ids are below the
auto-increment counter, as SQLite maintains). -/
theorem C9_create_get_roundtrip (db : DB) (emp mgr : String)
    (reason : Option String) (s e : Option String) (clk : Clock)
    (hwf : ∀ p ∈ db.tardy, p.1 < db.nextId) :
    get_tardy (create_tardy_request db emp mgr reason s e clk).2
        (create_tardy_request db emp mgr reason s e clk).1
      = some { employee_tg_id := emp, manager_tg_id := mgr, reason := reason,
               start_time := s, end_time := e,
               submitted_at := submitted_now_str clk, status := "pending" } := by
  simp only [create_tardy_request, get_tardy]
  exact getAssoc_append_fresh db.tardy db.nextId _
    (fun p hp => Nat.ne_of_lt (hwf p hp))

def clkC9 : Clock := ⟨⟨2026, 10, 12, 4, 15, 0, 0⟩, ⟨2026, 10, 12, 9, 15, 0, 0⟩⟩

theorem C9_witness :
    get_tardy (create_tardy_request ⟨[], [], 1⟩ "7" "42" (some "traffic")
        (some "09:20") (some "09:45") clkC9).2
      (create_tardy_request ⟨[], [], 1⟩ "7" "42" (some "traffic")
        (some "09:20") (some "09:45") clkC9).1
      = some ⟨"7", "42", some "traffic", some "09:20", some "09:45",
              "2026-10-12T04:15:00", "pending"⟩ := by
  have h := C9_create_get_roundtrip ⟨[], [], 1⟩ "7" "42" (some "traffic")
    (some "09:20") (some "09:45") clkC9 (by simp)
  exact h.trans (by decide)

/-! ### Claim C10 -/

/-- C10: for a registered user with truthy stored passport and birthdate,
when the supervisor-sync response's scanned keys contain no run of five
or more digits, the stored `supervisor_tg_id` is unconditionally
overwritten with `None` — whatever supervisor identity was stored before
is lost on this failed-to-parse path. -/
theorem C10_sync_overwrites_with_null (db : DB) (uid : String) (u : UserRow)
    (js : SyncJs)
    (hu : get_user db uid = some u)
    (hpass : pyTruthy u.passport = true)
    (hbd : pyTruthy u.birthdate = true)
    (hkeys : ∀ v : String,
      (js.supervisor_tg_id = some v ∨ js.manager_tg_id = some v ∨
       js.managerId = some v ∨ js.supervisorId = some v ∨
       js.supervisor = some v ∨ js.manager = some v) →
      hasFiveDigitRun v.toList = false) :
    (sync_supervisor_from_1c db uid js).2 = none ∧
    get_user (sync_supervisor_from_1c db uid js).1 uid
      = some { u with supervisor_tg_id := none } := by
  have hraw : hasFiveDigitRun (pickRawId js).toList = false := by
    unfold pickRawId
    apply pyOrStr_noRun _ _ (fun v hv => hkeys v (Or.inl hv))
    apply pyOrStr_noRun _ _ (fun v hv => hkeys v (Or.inr (Or.inl hv)))
    apply pyOrStr_noRun _ _ (fun v hv => hkeys v (Or.inr (Or.inr (Or.inl hv))))
    apply pyOrStr_noRun _ _
      (fun v hv => hkeys v (Or.inr (Or.inr (Or.inr (Or.inl hv)))))
    apply pyOrStr_noRun _ _
      (fun v hv => hkeys v (Or.inr (Or.inr (Or.inr (Or.inr (Or.inl hv))))))
    apply pyOrStr_noRun _ _
      (fun v hv => hkeys v (Or.inr (Or.inr (Or.inr (Or.inr (Or.inr hv))))))
    rfl
  have hfind : findDigitRun (pickRawId js) = none := by
    unfold findDigitRun
    exact findRunAux_none _ [] rfl (by simpa using hraw)
  unfold sync_supervisor_from_1c
  rw [hu]
  simp only [hpass, hbd, Bool.not_true, Bool.or_self, Bool.false_eq_true,
    if_false, hfind]
  refine ⟨trivial, ?_⟩
  rw [get_user_set_supervisor, hu]
  rfl

def userC10 : UserRow :=
  ⟨some "AD1234567", some "30.09.2005", some "Employee", false, some "555444333"⟩

def dbC10 : DB := ⟨[("7", userC10)], [], 1⟩

def jsC10 : SyncJs := ⟨some "tg://user?id=12", none, none, none, none, none⟩

theorem C10_witness :
    (sync_supervisor_from_1c dbC10 "7" jsC10).2 = none ∧
    get_user (sync_supervisor_from_1c dbC10 "7" jsC10).1 "7"
      = some { userC10 with supervisor_tg_id := none } := by
  have hk : ∀ v : String,
      (jsC10.supervisor_tg_id = some v ∨ jsC10.manager_tg_id = some v ∨
       jsC10.managerId = some v ∨ jsC10.supervisorId = some v ∨
       jsC10.supervisor = some v ∨ jsC10.manager = some v) →
      hasFiveDigitRun v.toList = false := by
    intro v hv
    rcases hv with h | h | h | h | h | h <;> simp [jsC10] at h
    subst h
    decide
  exact C10_sync_overwrites_with_null dbC10 "7" userC10 jsC10 rfl (by decide)
    (by decide) hk

end TardyBot
